import Mathlib

/-!
Verification development for the deadhand heartbeat-gated custody protocol.

The embedding covers `src/app/crypto.py` (AES-GCM envelope helpers),
`src/app/models.py` (the `User` vault record) and the custody endpoints of
`src/app/main.py` (`create_vault`, `heartbeat`, `check_heartbeats`,
`change_beneficiary`).

Modelling choices:
* Python `str` and `bytes` are both modelled as `List Char` (`Str`); the
  `.encode()` / `.decode()` UTF-8 brackets in the source are identities in
  this representation.
* The external `cryptography` / `hashlib` / `base64` primitives are
  parameters of the development, collected in an `AeadModel` structure whose
  contract fields record exactly the library guarantees the source relies on
  (AEAD decryption inverts encryption under the same key and nonce, base64
  decoding inverts encoding).  Everything written by this repository —
  key derivation plumbing, nonce prepending and slicing at 12 bytes, the
  plaintext fallbacks, the commitment strings, the state machine — is
  embedded concretely.
* `datetime` values are modelled at whole-day granularity (`val : Int`,
  the naive clock reading) together with a timezone-awareness flag `tz`;
  `timedelta.days` of a difference of naive datetimes is `val` subtraction,
  `replace(tzinfo=None)` clears the flag without changing the reading, and
  `isoformat()` of an aware value differs textually from the naive one.
* Randomness (`os.urandom` nonces, `secrets.token_urlsafe`) and
  database-assigned values (`id`, `created_at` from `func.now()`) are
  explicit parameters of the operations that consume them.
-/

/-- Python strings and byte strings, as lists of characters. -/
abbrev Str := List Char

/-- Coerce a Lean string literal into the `Str` representation. -/
def pyStr (s : String) : Str := s.toList

/-- Model of a Python `datetime`: `val` is the naive clock reading in whole
days, `tz` records whether the value is timezone-aware. -/
structure PyDatetime where
  val : Int
  tz : Bool
deriving DecidableEq

/-- Model of `d.replace(tzinfo=None)`: the clock reading is kept verbatim. -/
def stripTz (d : PyDatetime) : PyDatetime := { d with tz := false }

/-- Model of `d.isoformat()`: a canonical rendering of the clock reading,
with a trailing UTC offset exactly when the value is timezone-aware. -/
def isoformat (d : PyDatetime) : Str :=
  (toString d.val).toList ++ (if d.tz then pyStr "+00:00" else [])

/-- Parameters standing for the external cryptographic libraries used by
`src/app/crypto.py` (`hashlib.sha256`, `AESGCM`, `base64`).  The two
round-trip fields are the library contracts the repository code relies on. -/
structure AeadModel where
  /-- `hashlib.sha256(x).digest()` — raw 32-byte digest (key derivation). -/
  sha256dig : Str → Str
  /-- `hashlib.sha256(x).hexdigest()` — hex digest (integrity commitment). -/
  sha256hex : Str → Str
  /-- `AESGCM(key).encrypt(nonce, pt, None)` — ciphertext plus tag. -/
  gcmEnc : Str → Str → Str → Str
  /-- `AESGCM(key).decrypt(nonce, ct, None)`; `none` models the `InvalidTag`
  (or malformed-input) exception. -/
  gcmDec : Str → Str → Str → Option Str
  /-- `base64.b64encode`. -/
  b64enc : Str → Str
  /-- `base64.b64decode`; `none` models a decoding exception. -/
  b64dec : Str → Option Str
  gcm_roundtrip : ∀ k n pt, gcmDec k n (gcmEnc k n pt) = some pt
  b64_roundtrip : ∀ bs, b64dec (b64enc bs) = some bs

/-- Embedding of `crypto.derive_key`: a 256-bit AES key from the heartbeat
token. -/
def derive_key (P : AeadModel) (heartbeat_token : Str) : Str :=
  P.sha256dig heartbeat_token

/-- Embedding of `crypto.encrypt_shard`: AES-GCM under a key derived from
`heartbeat_token`, returning base64 of `nonce ++ ciphertext`.  The random
12-byte nonce from `os.urandom(12)` is the explicit `nonce` parameter. -/
def encrypt_shard (P : AeadModel) (shard heartbeat_token nonce : Str) : Str :=
  P.b64enc (nonce ++ P.gcmEnc (derive_key P heartbeat_token) nonce shard)

/-- Embedding of `crypto.decrypt_shard`: base64-decode, split the nonce off
the first 12 bytes, AES-GCM decrypt.  `none` models the propagated exception
(no fallback exists inside this function). -/
def decrypt_shard (P : AeadModel) (encrypted_shard heartbeat_token : Str) : Option Str :=
  (P.b64dec encrypted_shard).bind fun data =>
    P.gcmDec (derive_key P heartbeat_token) (data.take 12) (data.drop 12)

/-- Embedding of `crypto.encrypt_token`: AES-GCM under a key hashed from the
server master key, returning base64 of `nonce ++ ciphertext`. -/
def encrypt_token (P : AeadModel) (token master_key nonce : Str) : Str :=
  P.b64enc (nonce ++ P.gcmEnc (P.sha256dig master_key) nonce token)

/-- Embedding of `crypto.decrypt_token`: like `decrypt_shard` but under the
master key, and with the `except Exception` fallback — any decryption
failure returns the stored input verbatim (legacy plaintext tokens). -/
def decrypt_token (P : AeadModel) (encrypted_token master_key : Str) : Str :=
  match (P.b64dec encrypted_token).bind fun data =>
      P.gcmDec (P.sha256dig master_key) (data.take 12) (data.drop 12) with
  | some plaintext => plaintext
  | none => encrypted_token

/-- Embedding of the `User` row of `src/app/models.py`, restricted to the
columns read or written by the custody protocol (Stripe, Telegram and
passkey columns are never consulted by the modelled endpoints).  `Option`
marks columns whose `NULL`/emptiness the code tests. -/
structure UserRec where
  id : Nat
  email : Str
  beneficiary_email : Str
  shard_c : Str
  config_hash : Option Str
  last_heartbeat : Option PyDatetime
  is_dead : Bool
  heartbeat_token : Str
  is_active : Bool
  created_at : Option PyDatetime
deriving DecidableEq

/-- The f-string `f"{beneficiary}|{shard}|{created_str}"` used for the
integrity commitment. -/
def configString (beneficiary shard created_str : Str) : Str :=
  beneficiary ++ pyStr "|" ++ shard ++ pyStr "|" ++ created_str

/-- Result of the `POST /vault/create` endpoint (post-CSRF paths). -/
inductive CvResult
  | alreadyExists
  | created
deriving DecidableEq

/-- A fresh `User(email=email)` row with the column defaults of
`models.py`; `id` and `created_at` are assigned by the database
(`created_at` via `server_default=func.now()`, hence timezone-aware on the
caller's side). -/
def newUserRow (email : Str) (newId : Nat) (dbCreatedAt : PyDatetime) : UserRec :=
  { id := newId
    email := email
    beneficiary_email := []
    shard_c := []
    config_hash := none
    last_heartbeat := none
    is_dead := false
    heartbeat_token := []
    is_active := true
    created_at := some dbCreatedAt }

/-- The field assignments of `create_vault` (main.py lines 1082-1107):
the commitment is hashed over the plaintext `shard_c` and the Python-side
`datetime.now()` (naive), the stored `shard_c` is the encrypted form, the
heartbeat token is stored sealed under the master key, `last_heartbeat` is
the same Python-side timestamp.  `is_dead`, `id`, `email` and `created_at`
are not assigned. -/
def applyVaultFields (P : AeadModel) (server_master_key : Str) (u : UserRec)
    (beneficiary_email shard_c heartbeat_token : Str) (nowVal : Int)
    (n1 n2 : Str) : UserRec :=
  let created_timestamp : PyDatetime := ⟨nowVal, false⟩
  { u with
    beneficiary_email := beneficiary_email
    shard_c := encrypt_shard P shard_c heartbeat_token n1
    config_hash :=
      some (P.sha256hex
        (configString beneficiary_email shard_c (isoformat created_timestamp)))
    heartbeat_token := encrypt_token P heartbeat_token server_master_key n2
    last_heartbeat := some created_timestamp }

/-- Embedding of `create_vault` (main.py lines 1056-1110), after the CSRF
check.  `existing` is the row found by the email lookup; `heartbeat_token`
stands for the fresh `secrets.token_urlsafe(32)` value, `nowVal` for
`datetime.now()`, `n1`/`n2` for the two `os.urandom(12)` nonces, and
`newId`/`dbCreatedAt` for the database-assigned columns of a fresh row.
An existing row with a non-empty `shard_c` that is not dead is rejected;
otherwise the same row (dead or not) is overwritten in place. -/
def create_vault (P : AeadModel) (server_master_key : Str)
    (existing : Option UserRec) (email beneficiary_email shard_c : Str)
    (heartbeat_token : Str) (nowVal : Int) (n1 n2 : Str)
    (newId : Nat) (dbCreatedAt : PyDatetime) : Option UserRec × CvResult :=
  match existing with
  | some u =>
      if u.shard_c ≠ [] ∧ u.is_dead = false then
        (some u, CvResult.alreadyExists)
      else
        (some (applyVaultFields P server_master_key u beneficiary_email
          shard_c heartbeat_token nowVal n1 n2), CvResult.created)
  | none =>
      (some (applyVaultFields P server_master_key
        (newUserRow email newId dbCreatedAt) beneficiary_email shard_c
        heartbeat_token nowVal n1 n2), CvResult.created)

/-- Result of the `GET /heartbeat/{user_id}/{token}` endpoint. -/
inductive HbResult
  | notFound
  | invalidToken
  | alreadyReleased
  | checkedIn
deriving DecidableEq

/-- Embedding of the `heartbeat` endpoint (main.py lines 1205-1252).
`u` is the row found by the id lookup; `nowVal` is `datetime.now()` at the
update site.  The stored token is decrypted and compared (constant-time in
the source) against the presented one; a dead vault renders the
`vault_triggered` page without touching the record; otherwise
`last_heartbeat` is set to now. -/
def heartbeat (P : AeadModel) (server_master_key : Str) (u : Option UserRec)
    (token : Str) (nowVal : Int) : Option UserRec × HbResult :=
  match u with
  | none => (none, HbResult.notFound)
  | some user =>
      let stored_token_decrypted :=
        decrypt_token P user.heartbeat_token server_master_key
      if stored_token_decrypted = token then
        if user.is_dead then (some user, HbResult.alreadyReleased)
        else (some { user with last_heartbeat := some ⟨nowVal, false⟩ },
              HbResult.checkedIn)
      else (some user, HbResult.invalidToken)

/-- HTTP status of each `heartbeat` outcome. -/
def hbStatus : HbResult → Nat
  | HbResult.notFound => 404
  | HbResult.invalidToken => 403
  | HbResult.alreadyReleased => 200
  | HbResult.checkedIn => 200

/-- Response body (or rendered template) of each `heartbeat` outcome. -/
def hbBody : HbResult → Str
  | HbResult.notFound => pyStr "Invalid link"
  | HbResult.invalidToken => pyStr "Invalid link or token"
  | HbResult.alreadyReleased => pyStr "vault_triggered.html"
  | HbResult.checkedIn => pyStr "check_in.html"

/-- The escalation tiers of `check_heartbeats` (main.py lines 1296-1384),
as a pure function of `days_since_heartbeat`. -/
inductive Tier
  | noAction
  | remind
  | warn
  | release
deriving DecidableEq

/-- The `if 29 <= d <= 31 / elif 59 <= d <= 61 / elif d >= 90 / else`
chain of the sweep. -/
def evaluate (days : Int) : Tier :=
  if 29 ≤ days ∧ days ≤ 31 then Tier.remind
  else if 59 ≤ days ∧ days ≤ 61 then Tier.warn
  else if 90 ≤ days then Tier.release
  else Tier.noAction

/-- The integrity check of the release branch (main.py lines 1385-1395):
it runs only when both `config_hash` and `created_at` are truthy, recomputes
the commitment over the current `beneficiary_email`, the stored (encrypted)
`shard_c` and the timezone-stripped `created_at`, and compares with the
stored hash.  `true` means the release proceeds. -/
def releaseIntegrityOK (P : AeadModel) (u : UserRec) : Bool :=
  match u.config_hash, u.created_at with
  | some ch, some ca =>
      if ch = [] then true
      else
        decide (P.sha256hex (configString u.beneficiary_email u.shard_c
          (isoformat (stripTz ca))) = ch)
  | _, _ => true

/-- Per-user outcome of one sweep iteration. -/
inductive SweepAction
  | skipped
  | reminded
  | warned
  | integrityError
  | released (disclosed : Str)
deriving DecidableEq

/-- Embedding of one iteration of the `check_heartbeats` loop (main.py
lines 1281-1468) on a selected user.  The token is decrypted (with the
legacy fallback of `decrypt_token`), `last_heartbeat` of `None` skips the
user, the tz flag is stripped before the day difference, and the release
branch runs the integrity check, decrypts the shard with a raw-value
fallback on failure, marks the user dead, and emails the disclosed value to
the beneficiary. -/
def sweepUserStep (P : AeadModel) (server_master_key : Str) (nowVal : Int)
    (u : UserRec) : UserRec × SweepAction :=
  let heartbeat_token_plain := decrypt_token P u.heartbeat_token server_master_key
  match u.last_heartbeat with
  | none => (u, SweepAction.skipped)
  | some last_hb0 =>
      let last_hb := if last_hb0.tz then stripTz last_hb0 else last_hb0
      let days_since_heartbeat : Int := nowVal - last_hb.val
      match evaluate days_since_heartbeat with
      | Tier.remind => (u, SweepAction.reminded)
      | Tier.warn => (u, SweepAction.warned)
      | Tier.release =>
          if releaseIntegrityOK P u then
            let shard_c_value :=
              match decrypt_shard P u.shard_c heartbeat_token_plain with
              | some v => v
              | none => u.shard_c
            ({ u with is_dead := true }, SweepAction.released shard_c_value)
          else (u, SweepAction.integrityError)
      | Tier.noAction => (u, SweepAction.skipped)

/-- The sweep's selection query (main.py line 1279): only records with
`is_dead == False` and `is_active == True` are processed. -/
def sweepSelect (users : List UserRec) : List UserRec :=
  users.filter fun u => !u.is_dead && u.is_active

/-- Embedding of the whole `check_heartbeats` cron body: the per-user step
over every selected record. -/
def check_heartbeats (P : AeadModel) (server_master_key : Str) (nowVal : Int)
    (users : List UserRec) : List (UserRec × SweepAction) :=
  (sweepSelect users).map (sweepUserStep P server_master_key nowVal)

/-- The regex `^[^@]+@[^@]+\.[^@]+$` of `change_beneficiary`: exactly one
at-sign, a non-empty local part, and a dot strictly inside the domain
part. -/
def validEmail (s : Str) : Bool :=
  match s.splitOn '@' with
  | [l, r] => !l.isEmpty && (r.drop 1).dropLast.contains '.'
  | _ => false

/-- Result of the `POST /vault/change-beneficiary` endpoint. -/
inductive CbResult
  | invalidEmail
  | notFound
  | invalidToken
  | alreadyTriggered
  | ok
deriving DecidableEq

/-- The `created_str` computation of `change_beneficiary` (main.py lines
1522-1525): timezone is stripped when present; a missing `created_at`
renders as `str(None)`. -/
def cbCreatedStr : Option PyDatetime → Str
  | some ca => isoformat (stripTz ca)
  | none => pyStr "None"

/-- Embedding of `change_beneficiary` (main.py lines 1482-1549), after the
CSRF check: email validation, id lookup, token comparison, dead-vault
rejection, then the atomic update of `beneficiary_email` together with the
recomputed `config_hash` over the new beneficiary, the stored (encrypted)
`shard_c` and the preserved `created_at`. -/
def change_beneficiary (P : AeadModel) (server_master_key : Str)
    (u : Option UserRec) (heartbeat_token new_beneficiary_email : Str) :
    Option UserRec × CbResult :=
  if validEmail new_beneficiary_email = false then (u, CbResult.invalidEmail)
  else
    match u with
    | none => (none, CbResult.notFound)
    | some user =>
        let stored_token := decrypt_token P user.heartbeat_token server_master_key
        if stored_token = heartbeat_token then
          if user.is_dead then (some user, CbResult.alreadyTriggered)
          else
            let created_str := cbCreatedStr user.created_at
            let config_hash :=
              P.sha256hex (configString new_beneficiary_email user.shard_c created_str)
            (some { user with
                      beneficiary_email := new_beneficiary_email
                      config_hash := some config_hash }, CbResult.ok)
        else (some user, CbResult.invalidToken)

/-- HTTP status of each `change_beneficiary` outcome. -/
def cbStatus : CbResult → Nat
  | CbResult.invalidEmail => 400
  | CbResult.notFound => 404
  | CbResult.invalidToken => 403
  | CbResult.alreadyTriggered => 409
  | CbResult.ok => 200

/-- Response detail of each `change_beneficiary` outcome. -/
def cbBody : CbResult → Str
  | CbResult.invalidEmail => pyStr "Invalid email address"
  | CbResult.notFound => pyStr "Vault not found"
  | CbResult.invalidToken => pyStr "Invalid heartbeat token"
  | CbResult.alreadyTriggered => pyStr "Vault has already been triggered"
  | CbResult.ok => pyStr "ok"

/-- A small concrete instance of the library parameters, used to evaluate
the embedded code on explicit inputs: hashing is the identity, AES-GCM is
modelled by tagging the plaintext with the first key character (so
decryption genuinely fails on inputs that were not produced by encryption
under the same key), and base64 is the identity. -/
def demoAead : AeadModel where
  sha256dig := id
  sha256hex := id
  gcmEnc := fun k _n pt => k.headD 'K' :: pt
  gcmDec := fun k _n ct =>
    match ct with
    | [] => none
    | c :: rest => if c = k.headD 'K' then some rest else none
  b64enc := id
  b64dec := some
  gcm_roundtrip := by intro k n pt; simp
  b64_roundtrip := by intro bs; rfl

/-- A concrete server master key (`SECRET_KEY`). -/
def demoKey : Str := pyStr "server-secret"


/-- Concrete vault records used to evaluate the embedded endpoints. -/
def tamperedUser : UserRec :=
  { id := 2
    email := pyStr "o@x.com"
    beneficiary_email := pyStr "evil@x.com"
    shard_c := pyStr "ct"
    config_hash := some (pyStr "hash-of-original-config")
    last_heartbeat := some ⟨0, false⟩
    is_dead := false
    heartbeat_token := pyStr "tk"
    is_active := true
    created_at := some ⟨0, false⟩ }

/-- A pre-encryption legacy record: raw shard, no stored commitment. -/
def absentHashUser : UserRec :=
  { id := 3
    email := pyStr "legacy@x.com"
    beneficiary_email := pyStr "ben@x.com"
    shard_c := pyStr "legacy-raw-shard"
    config_hash := none
    last_heartbeat := some ⟨0, false⟩
    is_dead := false
    heartbeat_token := pyStr "tk"
    is_active := true
    created_at := some ⟨0, false⟩ }

/-- A vault whose release already happened. -/
def deadUser : UserRec :=
  { id := 4
    email := pyStr "dead@x.com"
    beneficiary_email := pyStr "oldben@x.com"
    shard_c := pyStr "old-sealed-shard"
    config_hash := some (pyStr "old-hash")
    last_heartbeat := some ⟨0, false⟩
    is_dead := true
    heartbeat_token := pyStr "old-tok"
    is_active := true
    created_at := some ⟨0, true⟩ }

/-- An active vault with a legacy plaintext token. -/
def liveUser : UserRec :=
  { id := 5
    email := pyStr "live@x.com"
    beneficiary_email := pyStr "ben1@x.com"
    shard_c := pyStr "sealed"
    config_hash := some (pyStr "h0")
    last_heartbeat := some ⟨0, false⟩
    is_dead := false
    heartbeat_token := pyStr "tok5"
    is_active := true
    created_at := some ⟨3, true⟩ }

/-- The record produced by `create_vault` for a fresh owner at day 0 with
secret `shard-value`. -/
def c1User : UserRec :=
  applyVaultFields demoAead demoKey
    (newUserRow (pyStr "owner@example.com") 1 ⟨0, true⟩)
    (pyStr "ben@example.com") (pyStr "shard-value") (pyStr "tok-abc") 0
    (pyStr "noncetwelve1") (pyStr "noncetwelve2")

/-- Helper: opening a sealed heartbeat token under the same master key
recovers the token (library round-trip plus the 12-byte nonce split). -/
theorem decrypt_token_encrypt_token (P : AeadModel) (token mkk n : Str)
    (h : n.length = 12) :
    decrypt_token P (encrypt_token P token mkk n) mkk = token := by
  unfold decrypt_token encrypt_token
  rw [P.b64_roundtrip]
  simp [List.take_left' h, List.drop_left' h, P.gcm_roundtrip]

/-- C1: a vault opened via `create_vault` that receives no heartbeat for 90
days is, contrary to the specified release scenario, never released: the
commitment stored at creation is hashed over the plaintext shard and the
Python-side timestamp, while the sweep recomputes it over the stored
encrypted shard and the database `created_at`, so the integrity check
always fails, the sweep counts an error, the secret is never disclosed and
the vault is never marked dead.  This theorem evaluates the code at the
failing input (fresh vault, day-90 sweep, even with the database timestamp
numerically equal to the creation timestamp). -/
theorem c1_release_never_fires :
    create_vault demoAead demoKey none (pyStr "owner@example.com")
        (pyStr "ben@example.com") (pyStr "shard-value") (pyStr "tok-abc") 0
        (pyStr "noncetwelve1") (pyStr "noncetwelve2") 1 ⟨0, true⟩
      = (some c1User, CvResult.created) ∧
    sweepUserStep demoAead demoKey 90 c1User
      = (c1User, SweepAction.integrityError) ∧
    c1User.is_dead = false := by decide

/-- C4: a renew request on a released vault that presents the correct
heartbeat secret returns the already-released outcome and leaves the record
unchanged; in particular `last_heartbeat` is not updated. -/
theorem c4_no_resurrection (P : AeadModel) (mkk tok : Str) (nv : Int)
    (u : UserRec) (hd : u.is_dead = true)
    (ht : decrypt_token P u.heartbeat_token mkk = tok) :
    heartbeat P mkk (some u) tok nv = (some u, HbResult.alreadyReleased) := by
  simp [heartbeat, ht, hd]

/-- Witness for C4 at a concrete released vault with its legacy plaintext
token. -/
theorem c4_no_resurrection_witness :
    heartbeat demoAead demoKey (some deadUser) (pyStr "old-tok") 5
      = (some deadUser, HbResult.alreadyReleased) :=
  c4_no_resurrection demoAead demoKey (pyStr "old-tok") 5 deadUser rfl (by decide)

/-- C5: the escalation decision is a pure function of the elapsed whole-day
count: `[29,31]` gives remind, `[59,61]` gives warn, at least 90 gives
release, every other value (day 28 and day 32 included) gives no action. -/
theorem c5_evaluate_tiers (d : Int) :
    (29 ≤ d ∧ d ≤ 31 → evaluate d = Tier.remind) ∧
    (59 ≤ d ∧ d ≤ 61 → evaluate d = Tier.warn) ∧
    (90 ≤ d → evaluate d = Tier.release) ∧
    (¬(29 ≤ d ∧ d ≤ 31) → ¬(59 ≤ d ∧ d ≤ 61) → ¬90 ≤ d →
      evaluate d = Tier.noAction) := by
  refine ⟨?_, ?_, ?_, ?_⟩ <;>
    · intros
      unfold evaluate
      split_ifs <;> first | rfl | omega

/-- Witness for C5 at the boundary days named by the claim. -/
theorem c5_evaluate_tiers_witness :
    evaluate 29 = Tier.remind ∧ evaluate 31 = Tier.remind ∧
    evaluate 28 = Tier.noAction ∧ evaluate 32 = Tier.noAction ∧
    evaluate 59 = Tier.warn ∧ evaluate 61 = Tier.warn ∧
    evaluate 90 = Tier.release ∧ evaluate 365 = Tier.release :=
  ⟨(c5_evaluate_tiers 29).1 (by omega), (c5_evaluate_tiers 31).1 (by omega),
   (c5_evaluate_tiers 28).2.2.2 (by omega) (by omega) (by omega),
   (c5_evaluate_tiers 32).2.2.2 (by omega) (by omega) (by omega),
   (c5_evaluate_tiers 59).2.1 (by omega), (c5_evaluate_tiers 61).2.1 (by omega),
   (c5_evaluate_tiers 90).2.2.1 (by omega),
   (c5_evaluate_tiers 365).2.2.1 (by omega)⟩

/-- C7: decrypting an encrypted shard under the same heartbeat token
recovers the shard (seal/open round-trip through key derivation, the
12-byte nonce split and the base64 transport encoding). -/
theorem c7_shard_roundtrip (P : AeadModel) (shard heartbeat_token nonce : Str)
    (h : nonce.length = 12) :
    decrypt_shard P (encrypt_shard P shard heartbeat_token nonce)
      heartbeat_token = some shard := by
  unfold decrypt_shard encrypt_shard
  rw [P.b64_roundtrip]
  simp [List.take_left' h, List.drop_left' h, P.gcm_roundtrip]

/-- Witness for C7 at a concrete shard, token and 12-byte nonce. -/
theorem c7_shard_roundtrip_witness :
    decrypt_shard demoAead
      (encrypt_shard demoAead (pyStr "shard-value") (pyStr "tok-abc")
        (pyStr "abcdefghijkl")) (pyStr "tok-abc") = some (pyStr "shard-value") :=
  c7_shard_roundtrip demoAead (pyStr "shard-value") (pyStr "tok-abc")
    (pyStr "abcdefghijkl") (by decide)

/-- C2 counterexample: the integrity commitment is not compared on every
security-relevant read.  On a record whose stored commitment no longer
matches the recomputation (out-of-band tampering), heartbeat verification
with the correct token still succeeds and updates `last_heartbeat` instead
of rejecting; and a record whose stored commitment is absent skips the
release-time check entirely and reaches the disclosure step. -/
theorem c2_counterexample :
    demoAead.sha256hex (configString tamperedUser.beneficiary_email
        tamperedUser.shard_c (isoformat (stripTz (⟨0, false⟩ : PyDatetime))))
      ≠ pyStr "hash-of-original-config" ∧
    tamperedUser.config_hash = some (pyStr "hash-of-original-config") ∧
    heartbeat demoAead demoKey (some tamperedUser) (pyStr "tk") 5
      = (some { tamperedUser with last_heartbeat := some ⟨5, false⟩ },
         HbResult.checkedIn) ∧
    absentHashUser.config_hash = none ∧
    sweepUserStep demoAead demoKey 95 absentHashUser
      = ({ absentHashUser with is_dead := true },
         SweepAction.released (pyStr "legacy-raw-shard")) := by decide

/-- C2 (amended): the commitment is recomputed and compared only in the
sweep's release branch; there, when a non-empty commitment and a
`created_at` are stored and the recomputation differs, the release is
rejected with an integrity error, the record is left unchanged and the
secret is not disclosed.  Heartbeat verification performs no commitment
check, and an absent commitment skips the check. -/
theorem c2_release_mismatch_rejected (P : AeadModel) (mkk : Str) (nv : Int)
    (u : UserRec) (lh ca : PyDatetime) (ch : Str)
    (hlh : u.last_heartbeat = some lh) (h90 : 90 ≤ nv - lh.val)
    (hch : u.config_hash = some ch) (hne : ch ≠ [])
    (hca : u.created_at = some ca)
    (hmm : P.sha256hex (configString u.beneficiary_email u.shard_c
      (isoformat (stripTz ca))) ≠ ch) :
    sweepUserStep P mkk nv u = (u, SweepAction.integrityError) := by
  have hval : (if lh.tz then stripTz lh else lh).val = lh.val := by
    cases h : lh.tz <;> simp [stripTz]
  have heval : evaluate (nv - lh.val) = Tier.release := by
    unfold evaluate
    split_ifs <;> first | rfl | omega
  have hint : releaseIntegrityOK P u = false := by
    unfold releaseIntegrityOK
    rw [hch, hca]
    simp [hne, hmm]
  simp [sweepUserStep, hlh, hval, heval, hint]

/-- Witness for the amended C2 at the concrete tampered record and a day-95
sweep. -/
theorem c2_release_mismatch_rejected_witness :
    sweepUserStep demoAead demoKey 95 tamperedUser
      = (tamperedUser, SweepAction.integrityError) :=
  c2_release_mismatch_rejected demoAead demoKey 95 tamperedUser ⟨0, false⟩
    ⟨0, false⟩ (pyStr "hash-of-original-config") rfl (by decide) rfl
    (by decide) rfl (by decide)

/-- C3 counterexample: a later `create_vault` for the owner of a released
vault overwrites the released record's sealed secret, beneficiary and
commitment in place, so those fields are not immutable after release. -/
theorem c3_counterexample :
    deadUser.is_dead = true ∧
    (create_vault demoAead demoKey (some deadUser) (pyStr "dead@x.com")
        (pyStr "newben@x.com") (pyStr "new-shard") (pyStr "new-tok") 100
        (pyStr "nonceabcdef1") (pyStr "nonceabcdef2") 9 ⟨100, true⟩).2
      = CvResult.created ∧
    ((create_vault demoAead demoKey (some deadUser) (pyStr "dead@x.com")
        (pyStr "newben@x.com") (pyStr "new-shard") (pyStr "new-tok") 100
        (pyStr "nonceabcdef1") (pyStr "nonceabcdef2") 9 ⟨100, true⟩).1.map
      (fun u => (u.shard_c, u.beneficiary_email, u.config_hash)))
      ≠ some (deadUser.shard_c, deadUser.beneficiary_email, deadUser.config_hash) := by
  decide

/-- C3 (amended): once a vault is released, `heartbeat`, `change_beneficiary`
and the sweep (whose selection excludes dead records) never modify it, and
no operation resets `is_dead`; a later `create_vault` for the same owner,
however, overwrites the sealed secret, beneficiary and commitment of the
released record in place while keeping it dead. -/
theorem c3_released_frame (P : AeadModel) (mkk : Str) (u : UserRec)
    (hdead : u.is_dead = true) :
    (∀ tok nv, (heartbeat P mkk (some u) tok nv).1 = some u ∧
      (heartbeat P mkk (some u) tok nv).2 ≠ HbResult.checkedIn) ∧
    (∀ tok nb, (change_beneficiary P mkk (some u) tok nb).1 = some u) ∧
    (∀ users, u ∉ sweepSelect users) ∧
    (∀ e b s t nv n1 n2 i ca u2 r,
      create_vault P mkk (some u) e b s t nv n1 n2 i ca = (some u2, r) →
        u2.is_dead = true) := by
  refine ⟨?_, ?_, ?_, ?_⟩
  · intro tok nv
    by_cases hc : decrypt_token P u.heartbeat_token mkk = tok <;>
      simp [heartbeat, hc, hdead]
  · intro tok nb
    unfold change_beneficiary
    split_ifs with h1
    · rfl
    · by_cases hc : decrypt_token P u.heartbeat_token mkk = tok <;>
        simp [hc, hdead]
  · intro users
    simp [sweepSelect, List.mem_filter, hdead]
  · intro e b s t nv n1 n2 i ca u2 r heq
    simp only [create_vault, hdead] at heq
    rw [if_neg (by simp [hdead])] at heq
    obtain ⟨h1, -⟩ := Prod.mk.injEq .. ▸ heq
    cases Option.some.injEq .. ▸ h1
    simp [applyVaultFields, hdead]

/-- Witness for the amended C3 at the concrete released vault. -/
theorem c3_released_frame_witness :
    (heartbeat demoAead demoKey (some deadUser) (pyStr "any") 7).1 = some deadUser ∧
    (change_beneficiary demoAead demoKey (some deadUser) (pyStr "old-tok")
      (pyStr "new@x.com")).1 = some deadUser ∧
    deadUser ∉ sweepSelect [deadUser] := by
  obtain ⟨h1, h2, h3, -⟩ := c3_released_frame demoAead demoKey deadUser rfl
  exact ⟨(h1 (pyStr "any") 7).1, h2 (pyStr "old-tok") (pyStr "new@x.com"),
    h3 [deadUser]⟩

/-- C6 counterexample: the failure results of `renew` and
`change_beneficiary` are distinguishable, not a single opaque rejection.
An unknown vault id answers 404 `Invalid link` (resp. `Vault not found`)
while a wrong heartbeat secret on an existing vault answers 403
`Invalid link or token` (resp. `Invalid heartbeat token`), so the two
failing inputs yield different statuses and bodies. -/
theorem c6_counterexample :
    (heartbeat demoAead demoKey none (pyStr "tk") 0).2 = HbResult.notFound ∧
    (heartbeat demoAead demoKey (some tamperedUser) (pyStr "wrong") 0).2
      = HbResult.invalidToken ∧
    (hbStatus (heartbeat demoAead demoKey none (pyStr "tk") 0).2,
     hbBody (heartbeat demoAead demoKey none (pyStr "tk") 0).2)
      ≠ (hbStatus (heartbeat demoAead demoKey (some tamperedUser) (pyStr "wrong") 0).2,
         hbBody (heartbeat demoAead demoKey (some tamperedUser) (pyStr "wrong") 0).2) ∧
    (change_beneficiary demoAead demoKey none (pyStr "tk") (pyStr "a@b.cd")).2
      = CbResult.notFound ∧
    (change_beneficiary demoAead demoKey (some tamperedUser) (pyStr "wrong")
      (pyStr "a@b.cd")).2 = CbResult.invalidToken ∧
    (cbStatus (change_beneficiary demoAead demoKey none (pyStr "tk") (pyStr "a@b.cd")).2,
     cbBody (change_beneficiary demoAead demoKey none (pyStr "tk") (pyStr "a@b.cd")).2)
      ≠ (cbStatus (change_beneficiary demoAead demoKey (some tamperedUser)
           (pyStr "wrong") (pyStr "a@b.cd")).2,
         cbBody (change_beneficiary demoAead demoKey (some tamperedUser)
           (pyStr "wrong") (pyStr "a@b.cd")).2) := by decide

/-- C6 (amended): failed `renew` and `change_beneficiary` attempts expose
the failure cause.  An unknown vault id returns 404 with `Invalid link`
(resp. `Vault not found`); a wrong heartbeat secret on an existing vault
returns 403 with `Invalid link or token` (resp. `Invalid heartbeat token`);
the statuses and bodies of the two causes differ. -/
theorem c6_failures_distinguishable (P : AeadModel) (mkk : Str) (nv : Int)
    (u : UserRec) (tok nb : Str)
    (htok : decrypt_token P u.heartbeat_token mkk ≠ tok)
    (hnb : validEmail nb = true) :
    heartbeat P mkk none tok nv = (none, HbResult.notFound) ∧
    heartbeat P mkk (some u) tok nv = (some u, HbResult.invalidToken) ∧
    hbStatus HbResult.notFound = 404 ∧ hbStatus HbResult.invalidToken = 403 ∧
    hbBody HbResult.notFound ≠ hbBody HbResult.invalidToken ∧
    change_beneficiary P mkk none tok nb = (none, CbResult.notFound) ∧
    change_beneficiary P mkk (some u) tok nb = (some u, CbResult.invalidToken) ∧
    cbStatus CbResult.notFound = 404 ∧ cbStatus CbResult.invalidToken = 403 ∧
    cbBody CbResult.notFound ≠ cbBody CbResult.invalidToken := by
  refine ⟨rfl, by simp [heartbeat, htok], rfl, rfl, by decide,
    by simp [change_beneficiary, hnb], by simp [change_beneficiary, hnb, htok],
    rfl, rfl, by decide⟩

/-- Witness for the amended C6 at concrete failing requests. -/
theorem c6_failures_distinguishable_witness :
    heartbeat demoAead demoKey none (pyStr "wrong") 0
      = (none, HbResult.notFound) ∧
    heartbeat demoAead demoKey (some tamperedUser) (pyStr "wrong") 0
      = (some tamperedUser, HbResult.invalidToken) :=
  ⟨(c6_failures_distinguishable demoAead demoKey 0 tamperedUser (pyStr "wrong")
      (pyStr "a@b.cd") (by decide) (by decide)).1,
   (c6_failures_distinguishable demoAead demoKey 0 tamperedUser (pyStr "wrong")
      (pyStr "a@b.cd") (by decide) (by decide)).2.1⟩

/-- C8: a beneficiary change on a live vault with the correct heartbeat
secret updates the beneficiary and, in the same transaction, overwrites the
commitment with the hash recomputed over the new beneficiary, the stored
sealed secret and the preserved creation timestamp, so the release-time
integrity verification of the updated record succeeds. -/
theorem c8_change_beneficiary_recommits (P : AeadModel) (mkk : Str)
    (u : UserRec) (tok nb : Str) (hv : validEmail nb = true)
    (ht : decrypt_token P u.heartbeat_token mkk = tok)
    (hd : u.is_dead = false) :
    change_beneficiary P mkk (some u) tok nb
      = (some { u with
            beneficiary_email := nb
            config_hash := some (P.sha256hex
              (configString nb u.shard_c (cbCreatedStr u.created_at))) },
         CbResult.ok) ∧
    releaseIntegrityOK P { u with
        beneficiary_email := nb
        config_hash := some (P.sha256hex
          (configString nb u.shard_c (cbCreatedStr u.created_at))) } = true := by
  constructor
  · simp [change_beneficiary, hv, ht, hd]
  · unfold releaseIntegrityOK
    cases hca : u.created_at with
    | none => simp [hca]
    | some ca => simp [hca, cbCreatedStr]

/-- Witness for C8 at a concrete live vault with a legacy plaintext token. -/
theorem c8_change_beneficiary_recommits_witness :
    change_beneficiary demoAead demoKey (some liveUser) (pyStr "tok5")
        (pyStr "ben2@x.com")
      = (some { liveUser with
            beneficiary_email := pyStr "ben2@x.com"
            config_hash := some (demoAead.sha256hex
              (configString (pyStr "ben2@x.com") liveUser.shard_c
                (cbCreatedStr liveUser.created_at))) }, CbResult.ok) ∧
    releaseIntegrityOK demoAead { liveUser with
        beneficiary_email := pyStr "ben2@x.com"
        config_hash := some (demoAead.sha256hex
          (configString (pyStr "ben2@x.com") liveUser.shard_c
            (cbCreatedStr liveUser.created_at))) } = true :=
  c8_change_beneficiary_recommits demoAead demoKey liveUser (pyStr "tok5")
    (pyStr "ben2@x.com") (by decide) (by decide) rfl

/-- C9 counterexample: the legacy cleartext fallback is not unique to the
heartbeat-token path.  On a record whose stored shard cannot be decrypted,
the sweep's release branch falls back to disclosing the raw stored
`shard_c` instead of aborting, so the custody-secret decryption path has a
cleartext fallback too. -/
theorem c9_counterexample :
    decrypt_shard demoAead absentHashUser.shard_c
        (decrypt_token demoAead absentHashUser.heartbeat_token demoKey) = none ∧
    sweepUserStep demoAead demoKey 95 absentHashUser
      = ({ absentHashUser with is_dead := true },
         SweepAction.released absentHashUser.shard_c) := by decide

/-- C9 (amended): `decrypt_token` is total and fails open — whenever the
underlying authenticated decryption fails it returns the stored input
verbatim — but this is not the only cleartext fallback in the core: the
sweep's release branch likewise discloses the raw stored `shard_c` whenever
`decrypt_shard` fails on a record that reaches disclosure. -/
theorem c9_decrypt_token_fails_open (P : AeadModel) (mkk : Str) :
    (∀ enc, ((P.b64dec enc).bind fun d =>
        P.gcmDec (P.sha256dig mkk) (d.take 12) (d.drop 12)) = none →
      decrypt_token P enc mkk = enc) ∧
    (∀ nv (u : UserRec) lh, u.last_heartbeat = some lh → 90 ≤ nv - lh.val →
      releaseIntegrityOK P u = true →
      decrypt_shard P u.shard_c (decrypt_token P u.heartbeat_token mkk) = none →
      sweepUserStep P mkk nv u
        = ({ u with is_dead := true }, SweepAction.released u.shard_c)) := by
  constructor
  · intro enc h
    unfold decrypt_token
    rw [h]
  · intro nv u lh hlh h90 hok hfail
    have hval : (if lh.tz then stripTz lh else lh).val = lh.val := by
      cases h : lh.tz <;> simp [stripTz]
    have heval : evaluate (nv - lh.val) = Tier.release := by
      unfold evaluate
      split_ifs <;> first | rfl | omega
    simp [sweepUserStep, hlh, hval, heval, hok, hfail]

/-- Witness for the amended C9: a malformed stored token is returned
verbatim, and a concrete undecryptable-shard record is disclosed raw. -/
theorem c9_decrypt_token_fails_open_witness :
    decrypt_token demoAead (pyStr "xy") demoKey = pyStr "xy" ∧
    sweepUserStep demoAead demoKey 95 absentHashUser
      = ({ absentHashUser with is_dead := true },
         SweepAction.released absentHashUser.shard_c) :=
  ⟨(c9_decrypt_token_fails_open demoAead demoKey).1 (pyStr "xy") (by decide),
   (c9_decrypt_token_fails_open demoAead demoKey).2 95 absentHashUser
     ⟨0, false⟩ rfl (by decide) (by decide) (by decide)⟩

/-- C10: `create_vault` for the owner of a released vault overwrites the
secret, beneficiary, commitment, token and last-heartbeat fields of that
same record (id, email and `created_at` kept) while `is_dead` stays true;
consequently the superseding vault is excluded from every sweep selection,
its heartbeat link (correct token included) renders the vault-triggered
page, and no heartbeat request can ever renew it. -/
theorem c10_supersede_dead_vault (P : AeadModel) (mkk : Str) (u : UserRec)
    (hdead : u.is_dead = true) (e b s t : Str) (nv : Int) (n1 n2 : Str)
    (i : Nat) (ca : PyDatetime) (hn2 : n2.length = 12) :
    create_vault P mkk (some u) e b s t nv n1 n2 i ca
      = (some (applyVaultFields P mkk u b s t nv n1 n2), CvResult.created) ∧
    (applyVaultFields P mkk u b s t nv n1 n2).is_dead = true ∧
    (applyVaultFields P mkk u b s t nv n1 n2).id = u.id ∧
    (applyVaultFields P mkk u b s t nv n1 n2).email = u.email ∧
    (applyVaultFields P mkk u b s t nv n1 n2).created_at = u.created_at ∧
    (applyVaultFields P mkk u b s t nv n1 n2).shard_c = encrypt_shard P s t n1 ∧
    (applyVaultFields P mkk u b s t nv n1 n2).beneficiary_email = b ∧
    (applyVaultFields P mkk u b s t nv n1 n2).config_hash
      = some (P.sha256hex (configString b s (isoformat ⟨nv, false⟩))) ∧
    (applyVaultFields P mkk u b s t nv n1 n2).heartbeat_token
      = encrypt_token P t mkk n2 ∧
    (applyVaultFields P mkk u b s t nv n1 n2).last_heartbeat = some ⟨nv, false⟩ ∧
    (∀ users, applyVaultFields P mkk u b s t nv n1 n2 ∉ sweepSelect users) ∧
    (∀ nv2, heartbeat P mkk (some (applyVaultFields P mkk u b s t nv n1 n2)) t nv2
      = (some (applyVaultFields P mkk u b s t nv n1 n2),
         HbResult.alreadyReleased)) ∧
    (∀ tok nv2,
      (heartbeat P mkk (some (applyVaultFields P mkk u b s t nv n1 n2)) tok nv2).2
        ≠ HbResult.checkedIn) := by
  have htok : decrypt_token P
      (applyVaultFields P mkk u b s t nv n1 n2).heartbeat_token mkk = t := by
    simp only [applyVaultFields]
    exact decrypt_token_encrypt_token P t mkk n2 hn2
  have hdead2 : (applyVaultFields P mkk u b s t nv n1 n2).is_dead = true := by
    simp [applyVaultFields, hdead]
  refine ⟨?_, hdead2, by simp [applyVaultFields], by simp [applyVaultFields],
    by simp [applyVaultFields], by simp [applyVaultFields],
    by simp [applyVaultFields], by simp [applyVaultFields],
    by simp [applyVaultFields], by simp [applyVaultFields], ?_, ?_, ?_⟩
  · simp [create_vault, hdead]
  · intro users
    simp [sweepSelect, List.mem_filter, hdead2]
  · intro nv2
    simp [heartbeat, htok, hdead2]
  · intro tok nv2
    by_cases hc : decrypt_token P
        (applyVaultFields P mkk u b s t nv n1 n2).heartbeat_token mkk = tok <;>
      simp [heartbeat, hc, hdead2]

/-- Witness for C10: the released demo vault is superseded in place, stays
dead, is excluded from the sweep selection, and its fresh heartbeat link
renders the vault-triggered page. -/
theorem c10_supersede_dead_vault_witness :
    create_vault demoAead demoKey (some deadUser) (pyStr "dead@x.com")
        (pyStr "newben@x.com") (pyStr "new-shard") (pyStr "new-tok") 100
        (pyStr "nonceabcdef1") (pyStr "nonceabcdef2") 9 ⟨100, true⟩
      = (some (applyVaultFields demoAead demoKey deadUser (pyStr "newben@x.com")
          (pyStr "new-shard") (pyStr "new-tok") 100 (pyStr "nonceabcdef1")
          (pyStr "nonceabcdef2")), CvResult.created) ∧
    (applyVaultFields demoAead demoKey deadUser (pyStr "newben@x.com")
      (pyStr "new-shard") (pyStr "new-tok") 100 (pyStr "nonceabcdef1")
      (pyStr "nonceabcdef2")).is_dead = true ∧
    applyVaultFields demoAead demoKey deadUser (pyStr "newben@x.com")
        (pyStr "new-shard") (pyStr "new-tok") 100 (pyStr "nonceabcdef1")
        (pyStr "nonceabcdef2")
      ∉ sweepSelect [applyVaultFields demoAead demoKey deadUser
          (pyStr "newben@x.com") (pyStr "new-shard") (pyStr "new-tok") 100
          (pyStr "nonceabcdef1") (pyStr "nonceabcdef2")] ∧
    heartbeat demoAead demoKey
        (some (applyVaultFields demoAead demoKey deadUser (pyStr "newben@x.com")
          (pyStr "new-shard") (pyStr "new-tok") 100 (pyStr "nonceabcdef1")
          (pyStr "nonceabcdef2"))) (pyStr "new-tok") 120
      = (some (applyVaultFields demoAead demoKey deadUser (pyStr "newben@x.com")
          (pyStr "new-shard") (pyStr "new-tok") 100 (pyStr "nonceabcdef1")
          (pyStr "nonceabcdef2")), HbResult.alreadyReleased) := by
  obtain ⟨h1, h2, -, -, -, -, -, -, -, -, h11, h12, -⟩ :=
    c10_supersede_dead_vault demoAead demoKey deadUser rfl (pyStr "dead@x.com")
      (pyStr "newben@x.com") (pyStr "new-shard") (pyStr "new-tok") 100
      (pyStr "nonceabcdef1") (pyStr "nonceabcdef2") 9 ⟨100, true⟩ (by decide)
  exact ⟨h1, h2, h11 _, h12 120⟩
